import Mathlib

/-!
Verification of the AMT WSMAN client (`amt/client.py`).

The Python source is shallowly embedded: pure helpers become Lean
functions; the HTTP transport is an oracle mapping each issued request to
a `Response`; exceptions become `Option`/explicit error constructors.
XML response bodies are modelled as already-parsed element trees
(`Xml`); parsing of raw bytes is outside the model.
-/

namespace Amt

/-! ### CIM schema constants (client.py lines 39-62) -/

def SCHEMA_BASE : String := "http://schemas.dmtf.org/wbem/wscim/1/cim-schema/2/"

def CIM_AssociatedPowerManagementService : String :=
  SCHEMA_BASE ++ "CIM_AssociatedPowerManagementService"

def CIM_PowerManagementService : String :=
  SCHEMA_BASE ++ "CIM_PowerManagementService"

def CIM_BootService : String := SCHEMA_BASE ++ "CIM_BootService"

def CIM_ComputerSystem : String := SCHEMA_BASE ++ "CIM_ComputerSystem"

def CIM_BootConfigSetting : String := SCHEMA_BASE ++ "CIM_BootConfigSetting"

def CIM_BootSourceSetting : String := SCHEMA_BASE ++ "CIM_BootSourceSetting"

/-- Namespace used by `vnc_status` (client.py lines 204-207, two adjacent
string literals concatenated by Python). -/
def IPS_KVMRedirectionSettingData : String :=
  "http://intel.com/wbem/wscim/1/ips-schema/1/IPS_KVMRedirectionSettingData"

/-- `AMT_PROTOCOL_PORT_MAP` (client.py lines 59-62).  Dictionary lookup
`AMT_PROTOCOL_PORT_MAP[protocol]` raises `KeyError` for any other key,
modelled by `none`. -/
def AMT_PROTOCOL_PORT_MAP : String → Option Nat
  | "http" => some 16992
  | "https" => some 16993
  | _ => none

/-! ### XML element trees

An ElementTree element: a namespace-qualified tag `{ns}name`, optional
text content, and a sequence of child elements.  (Mixed content and tail
text play no role in the source's lookups and are not modelled.)  The
children are a mutually defined forest so that every traversal below is
structurally recursive and computes by reduction. -/

mutual

inductive Xml where
  | elem (tagNs tagName : String) (text : Option String) (children : XmlForest)

inductive XmlForest where
  | nil
  | cons (head : Xml) (tail : XmlForest)

end

def XmlForest.ofList : List Xml → XmlForest
  | [] => .nil
  | x :: xs => .cons x (XmlForest.ofList xs)

/-- Build an element from a plain list of children. -/
def Xml.node (ns nm : String) (t : Option String) (cs : List Xml) : Xml :=
  .elem ns nm t (XmlForest.ofList cs)

def Xml.tagNs : Xml → String
  | .elem n _ _ _ => n

def Xml.tagName : Xml → String
  | .elem _ n _ _ => n

def Xml.text : Xml → Option String
  | .elem _ _ t _ => t

def Xml.children : Xml → XmlForest
  | .elem _ _ _ cs => cs

/-- Does an element's qualified tag equal `{ns}nm`? -/
def isMatch (ns nm : String) (e : Xml) : Bool :=
  e.tagNs == ns && e.tagName == nm

mutual

/-- An element together with its descendants, in document order
(pre-order). -/
def Xml.selfAndDesc : Xml → List Xml
  | .elem ns nm t cs => .elem ns nm t cs :: cs.preorder

/-- Document-order listing of all elements of a forest. -/
def XmlForest.preorder : XmlForest → List Xml
  | .nil => []
  | .cons x xs => x.selfAndDesc ++ xs.preorder

end

/-- The descendants of `doc` in document order, excluding `doc` itself:
exactly the elements visited by an ElementTree `.//` search rooted at
`doc`. -/
def descendants (doc : Xml) : List Xml :=
  doc.children.preorder

mutual

/-- ElementTree's `.//` walk over one subtree: the element itself first,
then its children left to right. -/
def findInXml (ns nm : String) : Xml → Option Xml
  | .elem ns2 nm2 t cs =>
      if ns2 == ns && nm2 == nm then some (.elem ns2 nm2 t cs)
      else findInForest ns nm cs

/-- ElementTree's `.//` walk over a forest of siblings. -/
def findInForest (ns nm : String) : XmlForest → Option Xml
  | .nil => none
  | .cons x xs =>
      match findInXml ns nm x with
      | some r => some r
      | none => findInForest ns nm xs

end

/-- `doc.find('.//{ns}nm')` (used by `_find_value` and `_return_value`):
first matching strict descendant of `doc`, or `none` when there is no
match. -/
def etFind (doc : Xml) (ns nm : String) : Option Xml :=
  findInForest ns nm doc.children

/-! ### Python `int()` on strings

`int(s)` strips surrounding whitespace, accepts one optional sign, then a
nonempty digit run in which single underscores may separate digits.
Failure (`ValueError`) is `none`. -/

/-- Digit accumulation with Python's single-underscore-between-digits
rule.  `acc` already holds the value of the digits consumed so far. -/
def pyDigits (acc : Nat) : List Char → Option Nat
  | [] => some acc
  | '_' :: rest =>
      match rest with
      | [] => none
      | d :: rest2 =>
          if d.isDigit then pyDigits (10 * acc + (d.toNat - 48)) rest2 else none
  | c :: rest =>
      if c.isDigit then pyDigits (10 * acc + (c.toNat - 48)) rest else none

/-- A digit run must start with a digit (not an underscore). -/
def pyDigitsStart : List Char → Option Nat
  | [] => none
  | c :: rest => if c.isDigit then pyDigits (c.toNat - 48) rest else none

/-- The whitespace characters Python's `str.strip()` removes (restricted
to the ASCII range; the CIM bodies at hand contain no other
whitespace). -/
def isPySpace (c : Char) : Bool :=
  c = ' ' || c = '\t' || c = '\n' || c = '\r' || c = '\x0b' || c = '\x0c'

/-- `s.strip()` on a character list. -/
def pyStrip (cs : List Char) : List Char :=
  ((cs.dropWhile isPySpace).reverse.dropWhile isPySpace).reverse

/-- Python `int(s)` for a decimal string. -/
def pyParseInt (s : String) : Option Int :=
  match pyStrip s.data with
  | '+' :: rest => (pyDigitsStart rest).map Int.ofNat
  | '-' :: rest => (pyDigitsStart rest).map (fun n => -(n : Int))
  | cs => (pyDigitsStart cs).map Int.ofNat

/-! ### The response extractors (client.py lines 215-236) -/

/-- `_find_value(content, ns, key)` (client.py lines 215-224): find the
first `{ns}key` descendant and return `rv.text`.  When no element
matches, `rv` is Python `None` and `rv.text` raises `AttributeError`,
modelled by the outer `none`; the inner option is the element's own
(possibly absent) text. -/
def find_value (content : Xml) (ns key : String) : Option (Option String) :=
  match etFind content ns key with
  | none => none
  | some e => some e.text

/-- `_return_value(content, ns)` (client.py lines 227-236): find the first
`{ns}ReturnValue` descendant and return `int(rv.text)`.  `none` models
the exceptions: `AttributeError` when no element matches, `TypeError`
when its text is absent, `ValueError` when the text is not an integer. -/
def return_value (content : Xml) (ns : String) : Option Int :=
  match etFind content ns "ReturnValue" with
  | none => none
  | some e =>
      match e.text with
      | none => none
      | some s => pyParseInt s

/-! ### The client object (client.py lines 74-88)

`Client.__init__` assigns exactly three instance attributes: `self.uri`,
`self.username`, `self.password`.  No other assignment to `self.<attr>`
occurs anywhere in the source file. -/

structure Client where
  uri : String
  username : String
  password : String
deriving DecidableEq

/-- A Python attribute value (only strings and ints arise here). -/
inductive PyVal where
  | str (s : String)
  | int (n : Int)
deriving DecidableEq

/-- Attribute lookup on a `Client` instance.  `none` models
`AttributeError`: the class defines no other data attribute and
`__init__` is the only method that assigns to `self`. -/
def Client.getattr (c : Client) : String → Option PyVal
  | "uri" => some (.str c.uri)
  | "username" => some (.str c.username)
  | "password" => some (.str c.password)
  | _ => none

/-- `Client.__init__(address, password, username, protocol)`:
`AMT_PROTOCOL_PORT_MAP[protocol]` may raise `KeyError` (`none`); the URI
is `protocol://address:port/wsman`. -/
def Client.init (address password username protocol : String) : Option Client :=
  match AMT_PROTOCOL_PORT_MAP protocol with
  | none => none
  | some port =>
      some { uri := protocol ++ "://" ++ address ++ ":" ++ toString port ++ "/wsman"
             username := username
             password := password }

/-! ### The reachability probe `_awaken_amt` (client.py lines 90-115) -/

/-- Result of one `socket.create_connection` attempt. -/
inductive ConnectOutcome where
  | accepted
  | refused
  | failed (errnoVal : Int)
deriving DecidableEq

/-- Errors `_awaken_amt` can raise: `AttributeError` from evaluating a
missing `self.<attr>`, `AMTTimeout` from deadline expiry, and a
propagated non-`ECONNREFUSED` socket error. -/
inductive AwakenError where
  | attributeError (attr : String)
  | amtTimeout
  | socketError (errnoVal : Int)
deriving DecidableEq

/-- The network and clock, as seen by successive connect attempts:
`outcome n` is the result of the `n`-th attempt, `attemptTime n` the
wall-clock seconds it consumes. -/
structure NetEnv where
  outcome : Nat → ConnectOutcome
  attemptTime : Nat → ℚ

/-- The `while datetime.now() < end_time` loop of `_awaken_amt`.  `now`
is elapsed wall-clock seconds since `start_time`; each iteration first
evaluates `self.address` and `self.port` (the tuple argument of
`socket.create_connection`), then attempts the connection; a refused
attempt sleeps 0.5 s and retries; any other socket error propagates;
deadline expiry raises `AMTTimeout`.  `fuel` bounds the number of
modelled iterations (`none` = fuel exhausted). -/
def awakenLoop (c : Client) (env : NetEnv) (endTime now : ℚ) (n fuel : Nat) :
    Option (Except AwakenError Unit) :=
  match fuel with
  | 0 => none
  | fuel + 1 =>
      if now < endTime then
        match c.getattr "address" with
        | none => some (.error (.attributeError "address"))
        | some _ =>
            match c.getattr "port" with
            | none => some (.error (.attributeError "port"))
            | some _ =>
                match env.outcome n with
                | .accepted => some (.ok ())
                | .refused =>
                    awakenLoop c env endTime (now + env.attemptTime n + 1/2) (n + 1) fuel
                | .failed e => some (.error (.socketError e))
      else some (.error .amtTimeout)

/-- `_awaken_amt(timeout)`: `end_time = start_time + timeout`, measured
here from `now = 0`. -/
def awaken_amt (c : Client) (env : NetEnv) (timeout : ℚ) (fuel : Nat) :
    Option (Except AwakenError Unit) :=
  awakenLoop c env timeout 0 0 fuel

/-! ### Payloads, requests, responses -/

/-- Descriptors for the envelopes the external `wsman` payload builder
produces; the core treats each as an opaque blob, so the descriptor
records exactly the builder call and its arguments. -/
inductive Payload where
  | powerStateRequest (uri state : String)
  | changeBootOrder (uri device : String)
  | enableBootConfig (uri : String)
  | getRequest (uri ns : String)
  | enableRemoteKvm (uri password : String)
  | kvmRedirect (uri : String)
deriving DecidableEq

/-- One HTTP POST as issued by the client: target URI, optional
`content-type` header, digest-auth credentials, and the envelope body. -/
structure HttpRequest where
  uri : String
  contentType : Option String
  auth : Option (String × String)
  body : Payload
deriving DecidableEq

/-- An HTTP response: status code and (already parsed) XML body. -/
structure Response where
  status : Nat
  body : Xml

/-- The transport oracle: what the device answers to each request. -/
def Transport := HttpRequest → Response

def soapContentType : String := "application/soap+xml;charset=UTF-8"

/-- The request issued by `Client.post` (client.py lines 119-123):
`content-type` header, digest auth with the stored credentials, payload
as body. -/
def postRequest (c : Client) (p : Payload) : HttpRequest :=
  { uri := c.uri
    contentType := some soapContentType
    auth := some (c.username, c.password)
    body := p }

/-- The request issued directly by `power_status` (lines 175-177) and
`vnc_status` (lines 209-211): digest auth and the payload body, but no
headers argument, hence no `content-type` header. -/
def rawRequest (c : Client) (p : Payload) : HttpRequest :=
  { uri := c.uri
    contentType := none
    auth := some (c.username, c.password)
    body := p }

/-! ### `Client.post` response handling (client.py lines 124-135) -/

/-- Diagnostic output of `post`: `print("Status: %s" % ...)` and
`print(pp_xml(resp.content))`. -/
inductive PrintEvent where
  | statusLine (code : Nat)
  | bodyXml
deriving DecidableEq

/-- What `post` produces: a returned value (`some 0`, `some 1`, or
Python `None` on the fall-through path), or a propagated exception from
`_return_value` on a response of unexpected shape. -/
inductive PostResult where
  | ret (code : Option Nat)
  | malformed
deriving DecidableEq

structure PostOutcome where
  printed : List PrintEvent
  result : PostResult
deriving DecidableEq

/-- Lines 124-135 of `Client.post`, applied to the received response.
`if ns:` is Python truthiness: `None` and the empty string both take the
no-validation branch.  Note the fall-through: for a 200 response with a
nonzero `ReturnValue` the method prints the body and returns `None`. -/
def postProcess (ns : Option String) (resp : Response) : PostOutcome :=
  if resp.status = 200 then
    match ns with
    | some n =>
        if n = "" then { printed := [], result := .ret (some 0) }
        else
          match return_value resp.body n with
          | none => { printed := [], result := .malformed }
          | some rv =>
              if rv = 0 then { printed := [], result := .ret (some 0) }
              else { printed := [.bodyXml], result := .ret none }
    | none => { printed := [], result := .ret (some 0) }
  else
    { printed := [.statusLine resp.status, .bodyXml], result := .ret (some 1) }

/-- One `self.post(payload, ns)` call: build the request, send it, run
the response handling.  The `_awaken_amt()` pre-flight on line 118 is
modelled separately by `awaken_amt` (its failure aborts every
operation; see the reachability claims). -/
def runPost (c : Client) (env : Transport) (p : Payload) (ns : Option String) :
    HttpRequest × PostOutcome :=
  let req := postRequest c p
  (req, postProcess ns (env req))

/-! ### The public operations (client.py lines 137-212)

Each operation is modelled as the list of (request, outcome) pairs of
the posts it performs, together with the method's Python return value. -/

/-- `power_on` (lines 137-140). -/
def power_on (c : Client) (env : Transport) :
    List (HttpRequest × PostOutcome) × PostResult :=
  let r := runPost c env (Payload.powerStateRequest c.uri "on")
      (some CIM_PowerManagementService)
  ([r], r.2.result)

/-- `power_off` (lines 142-145). -/
def power_off (c : Client) (env : Transport) :
    List (HttpRequest × PostOutcome) × PostResult :=
  let r := runPost c env (Payload.powerStateRequest c.uri "off")
      (some CIM_PowerManagementService)
  ([r], r.2.result)

/-- `power_cycle` (lines 147-150). -/
def power_cycle (c : Client) (env : Transport) :
    List (HttpRequest × PostOutcome) × PostResult :=
  let r := runPost c env (Payload.powerStateRequest c.uri "reboot")
      (some CIM_PowerManagementService)
  ([r], r.2.result)

/-- `set_next_boot(boot_device)` (lines 159-168): two `self.post` calls
with no namespace, return values discarded, method returns `None`.  An
exception from the first post would propagate and skip the second; with
`ns=None` that branch is unreachable (proved below). -/
def set_next_boot (c : Client) (env : Transport) (boot_device : String) :
    List (HttpRequest × PostOutcome) × PostResult :=
  let r1 := runPost c env (Payload.changeBootOrder c.uri boot_device) none
  match r1.2.result with
  | .malformed => ([r1], .malformed)
  | _ =>
      let r2 := runPost c env (Payload.enableBootConfig c.uri) none
      ([r1, r2], .ret none)

/-- `pxe_next_boot` (lines 152-157): `self.set_next_boot('pxe')`, its
return value discarded, method returns `None`. -/
def pxe_next_boot (c : Client) (env : Transport) :
    List (HttpRequest × PostOutcome) × PostResult :=
  let r := set_next_boot c env "pxe"
  match r.2 with
  | .malformed => (r.1, .malformed)
  | _ => (r.1, .ret none)

/-- Python slicing `s[:n]` on a string (by code points). -/
def pySlice (n : Nat) (s : String) : String :=
  ⟨s.data.take n⟩

/-- The RFB password resolution in `enable_vnc` (lines 195-196):
`if not password or len(password) != 8: password = self.password[:8]`.
`not password` is true for `None` and for the empty string. -/
def rfb_password (stored : String) (password : Option String) : String :=
  match password with
  | none => pySlice 8 stored
  | some p => if p = "" ∨ p.length ≠ 8 then pySlice 8 stored else p

/-- `enable_vnc(password=None)` (lines 184-201): resolve the RFB
password, post `enable_remote_kvm`, then post `kvm_redirect`; return
values discarded, method returns `None`. -/
def enable_vnc (c : Client) (env : Transport) (password : Option String) :
    List (HttpRequest × PostOutcome) × PostResult :=
  let pw := rfb_password c.password password
  let r1 := runPost c env (Payload.enableRemoteKvm c.uri pw) none
  match r1.2.result with
  | .malformed => ([r1], .malformed)
  | _ =>
      let r2 := runPost c env (Payload.kvmRedirect c.uri) none
      ([r1, r2], .ret none)

/-- `power_status` (lines 170-182): builds a get request, POSTs it
directly (digest auth, no headers argument), and returns
`_find_value(resp.content, CIM_AssociatedPowerManagementService,
"PowerState")`.  The outer `none` of the result models the
`AttributeError` when the element is absent. -/
def power_status (c : Client) (env : Transport) :
    HttpRequest × Option (Option String) :=
  let req := rawRequest c
      (Payload.getRequest c.uri CIM_AssociatedPowerManagementService)
  (req, find_value (env req).body CIM_AssociatedPowerManagementService "PowerState")

/-- `vnc_status` (lines 203-212): builds a get request, POSTs it
directly (digest auth, no headers argument), returns the pretty-printed
body; we return the body tree itself, pretty-printing not being
modelled. -/
def vnc_status (c : Client) (env : Transport) : HttpRequest × Xml :=
  let req := rawRequest c (Payload.getRequest c.uri IPS_KVMRedirectionSettingData)
  (req, (env req).body)

/-! ### The operations as an enumerable family, for quantifying over
"every client operation" -/

inductive Operation where
  | powerOn
  | powerOff
  | powerCycle
  | powerStatus
  | pxeNextBoot
  | setNextBoot (device : String)
  | enableVnc (password : Option String)
  | vncStatus
deriving DecidableEq

/-- The HTTP requests an operation issues, in order. -/
def requests_of (c : Client) (env : Transport) : Operation → List HttpRequest
  | .powerOn => (power_on c env).1.map Prod.fst
  | .powerOff => (power_off c env).1.map Prod.fst
  | .powerCycle => (power_cycle c env).1.map Prod.fst
  | .powerStatus => [(power_status c env).1]
  | .pxeNextBoot => (pxe_next_boot c env).1.map Prod.fst
  | .setNextBoot d => (set_next_boot c env d).1.map Prod.fst
  | .enableVnc pw => (enable_vnc c env pw).1.map Prod.fst
  | .vncStatus => [(vnc_status c env).1]

/-- Which operations route their POSTs through the `post` helper (the
two status reads call `requests.post` directly). -/
def viaPostHelper : Operation → Bool
  | .powerStatus => false
  | .vncStatus => false
  | _ => true

/-! ### Concrete fixtures used by witnesses and counterexamples -/

/-- A client as built by `Client('192.168.0.10', 'secret12')`. -/
def exClient : Client :=
  { uri := "http://192.168.0.10:16992/wsman"
    username := "admin"
    password := "secret12" }

/-- A client whose stored password is shorter than 8 characters. -/
def exClientShort : Client :=
  { uri := "http://192.168.0.10:16992/wsman"
    username := "admin"
    password := "abc" }

/-- A response body carrying `ReturnValue = 0` under the
power-management namespace. -/
def exBodyRV0 : Xml :=
  Xml.node "se" "Envelope" none
    [Xml.node "se" "Body" none
      [Xml.node CIM_PowerManagementService "RequestPowerStateChange_OUTPUT" none
        [Xml.node CIM_PowerManagementService "ReturnValue" (some "0") []]]]

/-- Same shape with `ReturnValue = 2`. -/
def exBodyRV2 : Xml :=
  Xml.node "se" "Envelope" none
    [Xml.node "se" "Body" none
      [Xml.node CIM_PowerManagementService "RequestPowerStateChange_OUTPUT" none
        [Xml.node CIM_PowerManagementService "ReturnValue" (some "2") []]]]

/-- An empty SOAP-ish body. -/
def exBodyEmpty : Xml := Xml.node "se" "Envelope" none []

/-- Transport answering 200 / ReturnValue 0 to everything. -/
def envRV0 : Transport := fun _ => { status := 200, body := exBodyRV0 }

/-- Transport answering 200 / ReturnValue 2 to everything. -/
def envRV2 : Transport := fun _ => { status := 200, body := exBodyRV2 }

/-- Transport answering HTTP 500 to everything. -/
def env500 : Transport := fun _ => { status := 500, body := exBodyEmpty }

/-- A network on which every connect attempt is refused. -/
def refusedEnv : NetEnv :=
  { outcome := fun _ => .refused
    attemptTime := fun _ => 0 }

/-- A network that never accepts: every attempt is refused, each taking
one second of wall clock. -/
def neverAcceptsEnv : NetEnv :=
  { outcome := fun _ => .refused
    attemptTime := fun _ => 1 }

/-- A SOAP body in which the embedded element is the only `{N}K`
descendant. -/
def exDoc5 : Xml :=
  Xml.node "se" "Envelope" none [Xml.node "N" "K" (some "hello") []]

/-- The post-processing policy claimed for the three power operations:
result code 0 exactly on HTTP 200 with extracted ReturnValue 0; the
fall-through value (Python `None`) on HTTP 200 with a nonzero
ReturnValue; result code 1 on any non-200 status. -/
def powerReportSpec (result : PostResult) (resp : Response) : Prop :=
  ((result = .ret (some 0)) ↔
      (resp.status = 200 ∧
        return_value resp.body CIM_PowerManagementService = some 0)) ∧
  (∀ rv, resp.status = 200 →
      return_value resp.body CIM_PowerManagementService = some rv →
      rv ≠ 0 → result = .ret none) ∧
  (resp.status ≠ 200 → result = .ret (some 1))

/-! ## Helper lemmas -/

mutual

/-- The recursive ElementTree walk over one subtree finds exactly the
head of its document-order listing filtered by qualified tag. -/
theorem findInXml_eq (ns nm : String) :
    ∀ x : Xml, findInXml ns nm x = (x.selfAndDesc.filter (isMatch ns nm)).head?
  | .elem ns2 nm2 t cs => by
      rw [findInXml, Xml.selfAndDesc, List.filter_cons]
      by_cases h : (ns2 == ns && nm2 == nm) = true
      · simp [h, isMatch, Xml.tagNs, Xml.tagName]
      · rw [if_neg h, if_neg (by simpa [isMatch, Xml.tagNs, Xml.tagName] using h)]
        exact findInForest_eq ns nm cs

/-- The recursive ElementTree walk over a forest finds exactly the head
of its document-order listing filtered by qualified tag. -/
theorem findInForest_eq (ns nm : String) :
    ∀ f : XmlForest,
      findInForest ns nm f = (f.preorder.filter (isMatch ns nm)).head?
  | .nil => by simp [findInForest, XmlForest.preorder]
  | .cons x xs => by
      rw [findInForest, XmlForest.preorder, List.filter_append]
      rw [findInXml_eq ns nm x, findInForest_eq ns nm xs]
      cases hfc : x.selfAndDesc.filter (isMatch ns nm) with
      | nil => simp
      | cons a as => simp

end

/-- `doc.find('.//{ns}nm')` returns the first matching descendant in
document order. -/
theorem etFind_eq_head_filter (doc : Xml) (ns nm : String) :
    etFind doc ns nm = ((descendants doc).filter (isMatch ns nm)).head? :=
  findInForest_eq ns nm doc.children

/-- `post` with no namespace either returns 0 (status 200) or prints the
status and body and returns 1. -/
theorem postProcess_none (resp : Response) :
    postProcess none resp =
      if resp.status = 200 then { printed := [], result := .ret (some 0) }
      else
        { printed := [.statusLine resp.status, .bodyXml]
          result := .ret (some 1) } := by
  by_cases h : resp.status = 200 <;> simp [postProcess, h]

/-- With no namespace argument, `post` cannot raise from
`_return_value`: the extraction is never attempted. -/
theorem postProcess_none_result (resp : Response) :
    (postProcess none resp).result ≠ .malformed := by
  rw [postProcess_none]
  by_cases h : resp.status = 200 <;> simp [h]

/-- `set_next_boot` always performs exactly its two posts, in order, and
returns `None`. -/
theorem set_next_boot_spec (c : Client) (env : Transport) (d : String) :
    (set_next_boot c env d).1.map Prod.fst =
        [postRequest c (Payload.changeBootOrder c.uri d),
         postRequest c (Payload.enableBootConfig c.uri)] ∧
    (set_next_boot c env d).2 = .ret none := by
  simp only [set_next_boot, runPost]
  rw [postProcess_none]
  by_cases h : (env (postRequest c (Payload.changeBootOrder c.uri d))).status = 200 <;>
    simp [h]

/-- `enable_vnc` always performs exactly its two posts, in order, and
returns `None`. -/
theorem enable_vnc_spec (c : Client) (env : Transport) (arg : Option String) :
    (enable_vnc c env arg).1.map Prod.fst =
        [postRequest c
          (Payload.enableRemoteKvm c.uri (rfb_password c.password arg)),
         postRequest c (Payload.kvmRedirect c.uri)] ∧
    (enable_vnc c env arg).2 = .ret none := by
  simp only [enable_vnc, runPost]
  rw [postProcess_none]
  by_cases h : (env (postRequest c
      (Payload.enableRemoteKvm c.uri (rfb_password c.password arg)))).status = 200 <;>
    simp [h]

/-- `pxe_next_boot` is exactly `set_next_boot('pxe')`: both return
`None` and issue the same requests. -/
theorem pxe_next_boot_eq (c : Client) (env : Transport) :
    pxe_next_boot c env = set_next_boot c env "pxe" := by
  have h := (set_next_boot_spec c env "pxe").2
  simp only [pxe_next_boot]
  rw [h]
  exact Prod.ext rfl h.symm

/-- The RFB password resolution, restated: a supplied password is used
exactly when it is 8 characters long. -/
theorem rfb_password_eq (stored : String) (arg : Option String) :
    rfb_password stored arg =
      (match arg with
       | some p => if p.length = 8 then p else pySlice 8 stored
       | none => pySlice 8 stored) := by
  cases arg with
  | none => rfl
  | some p =>
      by_cases h8 : p.length = 8
      · have hp : p ≠ "" := by
          intro h
          subst h
          simp at h8
        simp [rfb_password, h8, hp]
      · simp [rfb_password, h8]

/-- The post-processing policy holds for every response handled with the
power-management namespace. -/
theorem reportSpec_postProcess (resp : Response) :
    powerReportSpec (postProcess (some CIM_PowerManagementService) resp).result resp := by
  have hne : ¬(CIM_PowerManagementService = "") := by decide
  by_cases hs : resp.status = 200
  · simp only [postProcess, if_pos hs, if_neg hne]
    cases hrv : return_value resp.body CIM_PowerManagementService with
    | none => simp [powerReportSpec, hrv, hs]
    | some rv =>
        by_cases hrv0 : rv = 0
        · subst hrv0
          simp [powerReportSpec, hrv, hs]
        · simp [powerReportSpec, hrv, hs, hrv0]
  · simp [powerReportSpec, postProcess, hs]

/-! ## The claims -/

/-- Claim C1: for every response to `power_on`, `power_off`, or
`power_cycle`, the operation reports success (result code 0) iff the
HTTP status is 200 and the extracted ReturnValue is 0; a 200 response
with nonzero ReturnValue yields the fall-through failure (Python
`None`, not the success code); any non-200 status yields result code 1
regardless of body. -/
theorem c1_power_ops_report (c : Client) (env : Transport) :
    powerReportSpec (power_on c env).2
      (env (postRequest c (Payload.powerStateRequest c.uri "on"))) ∧
    powerReportSpec (power_off c env).2
      (env (postRequest c (Payload.powerStateRequest c.uri "off"))) ∧
    powerReportSpec (power_cycle c env).2
      (env (postRequest c (Payload.powerStateRequest c.uri "reboot"))) :=
  ⟨reportSpec_postProcess _, reportSpec_postProcess _, reportSpec_postProcess _⟩

/-- Witness for C1: on an HTTP 500 response `power_on` returns 1; on a
200 response with ReturnValue 0 it returns 0; on a 200 response with
ReturnValue 2 it falls through to Python `None`. -/
theorem c1_power_ops_report_witness :
    (power_on exClient env500).2 = .ret (some 1) ∧
    (power_on exClient envRV0).2 = .ret (some 0) ∧
    (power_on exClient envRV2).2 = .ret none := by
  refine ⟨(c1_power_ops_report exClient env500).1.2.2 (by decide), ?_, ?_⟩
  · exact (c1_power_ops_report exClient envRV0).1.1.mpr ⟨by decide, by decide⟩
  · exact (c1_power_ops_report exClient envRV2).1.2.1 2 (by decide) (by decide) (by decide)

/-- Claim C2 (code bug): the reachability probe never reaches a connect
attempt.  `__init__` assigns only `self.uri`, `self.username` and
`self.password`, so the first loop iteration raises
`AttributeError('address')` while building the `create_connection`
argument tuple, for any positive timeout. -/
theorem c2_awaken_attribute_error :
    awaken_amt exClient refusedEnv 16 1000 =
      some (.error (.attributeError "address")) := by
  rfl

/-- Claim C3 (code bug): against a target that never accepts, the probe
does not fail with `AMTTimeout` after the 16-second deadline; it raises
`AttributeError('address')` in the first iteration instead. -/
theorem c3_timeout_error_unreachable :
    awaken_amt exClient neverAcceptsEnv 16 1000 ≠ some (.error .amtTimeout) ∧
    awaken_amt exClient neverAcceptsEnv 16 1000 =
      some (.error (.attributeError "address")) := by
  have he : awaken_amt exClient neverAcceptsEnv 16 1000 =
      some (.error (.attributeError "address")) := by rfl
  exact ⟨by rw [he]; simp, he⟩

/-- Claim C4: `_return_value` returns the Python-`int` conversion of the
text of the first descendant element named `ReturnValue` qualified by
`ns` (in document order), and fails (`none`, modelling the raised
exception) when no such descendant exists — including when the element
appears only under a different namespace — or when its text is absent
or not parseable as an integer. -/
theorem c4_return_value_spec (content : Xml) (ns : String) :
    return_value content ns =
      (((descendants content).filter (isMatch ns "ReturnValue")).head?.bind
        Xml.text).bind pyParseInt := by
  unfold return_value
  rw [show etFind content ns "ReturnValue" =
      ((descendants content).filter (isMatch ns "ReturnValue")).head? from
    etFind_eq_head_filter content ns "ReturnValue"]
  cases h : ((descendants content).filter (isMatch ns "ReturnValue")).head? with
  | none => rfl
  | some e =>
      cases he : e.text with
      | none => simp [he]
      | some s => simp [he]

/-- Counterexample to Claim C5 as stated: embedding a value "anywhere"
does not always round-trip.  Embedding `"b"` as the text of a `{N}K`
element in a document that already holds an earlier `{N}K` element
extracts the earlier text `"a"`, not `"b"`; and embedding the element as
the document root itself makes extraction fail (`.//` searches strict
descendants only), instead of returning the value. -/
theorem c5_counterexample :
    find_value
        (Xml.node "r" "root" none
          [Xml.node "N" "K" (some "a") [], Xml.node "N" "K" (some "b") []])
        "N" "K" = some (some "a") ∧
    ("a" : String) ≠ "b" ∧
    find_value (Xml.node "N" "K" (some "v") []) "N" "K" = none :=
  ⟨rfl, by decide, rfl⟩

/-- Claim C5 (amended): embedding `v` as the text of an element named
`k` qualified by `ns` anywhere in a well-formed document — provided the
embedded element is a proper descendant and no element matching
`{ns}k` precedes it in document order, i.e. it is the first match —
makes `extract_property` return exactly `v`. -/
theorem c5_round_trip (doc : Xml) (ns k v : String) (cs : XmlForest)
    (hfirst : ((descendants doc).filter (isMatch ns k)).head? =
        some (Xml.elem ns k (some v) cs)) :
    find_value doc ns k = some (some v) := by
  unfold find_value
  rw [show etFind doc ns k = ((descendants doc).filter (isMatch ns k)).head? from
    etFind_eq_head_filter doc ns k, hfirst]
  rfl

/-- Witness for C5: a value embedded under `{N}K` in a document with no
other `{N}K` element is extracted unchanged. -/
theorem c5_round_trip_witness : find_value exDoc5 "N" "K" = some (some "hello") :=
  c5_round_trip exDoc5 "N" "K" "hello" .nil rfl

/-- Claim C6: the RFB password sent in the enable-remote-KVM request is
the caller-supplied password exactly when one is supplied and is 8
characters long; in every other case (no argument, or an argument of
any other length, the empty string included) it is the first 8
characters of the stored account password. -/
theorem c6_enable_vnc_password (c : Client) (env : Transport) (arg : Option String) :
    (enable_vnc c env arg).1.map Prod.fst =
      [postRequest c
        (Payload.enableRemoteKvm c.uri
          (match arg with
           | some p => if p.length = 8 then p else pySlice 8 c.password
           | none => pySlice 8 c.password)),
       postRequest c (Payload.kvmRedirect c.uri)] := by
  rw [← rfb_password_eq c.password arg]
  exact (enable_vnc_spec c env arg).1

/-- Claim C7: `set_next_boot(device)` issues exactly two requests in
order — the boot-order change for `device`, then the one-shot
boot-config-override enable — for every transport behaviour, in
particular when the first exchange fails; and `pxe_next_boot` is
`set_next_boot("pxe")`. -/
theorem c7_set_next_boot_two_requests (c : Client) (env : Transport) (device : String) :
    (set_next_boot c env device).1.map Prod.fst =
        [postRequest c (Payload.changeBootOrder c.uri device),
         postRequest c (Payload.enableBootConfig c.uri)] ∧
    pxe_next_boot c env = set_next_boot c env "pxe" :=
  ⟨(set_next_boot_spec c env device).1, pxe_next_boot_eq c env⟩

/-- Claim C8 counterexample: the POST issued by `power_status` carries
no `content-type` header at all (the direct `requests.post` call passes
no `headers` argument), contradicting the claim that every POST carries
the SOAP content type. -/
theorem c8_counterexample :
    (power_status exClient envRV0).1.contentType = none ∧
    (power_status exClient envRV0).1.contentType ≠ some soapContentType :=
  ⟨rfl, by decide⟩

/-- Claim C8 (amended): every HTTP POST of every operation targets the
endpoint URI with HTTP Digest credentials (stored username/password)
and the SOAP envelope as body; the POSTs routed through the `post`
helper carry `content-type: application/soap+xml;charset=UTF-8`, while
the direct POSTs of the read-only `power_status` and `vnc_status` carry
no content-type header. -/
theorem c8_requests_auth_and_header (c : Client) (env : Transport) (op : Operation)
    (req : HttpRequest) (hmem : req ∈ requests_of c env op) :
    req.uri = c.uri ∧
    req.auth = some (c.username, c.password) ∧
    req.contentType = (if viaPostHelper op then some soapContentType else none) := by
  cases op with
  | powerOn =>
      simp only [requests_of, power_on, runPost, List.map, List.mem_singleton] at hmem
      subst hmem
      exact ⟨rfl, rfl, rfl⟩
  | powerOff =>
      simp only [requests_of, power_off, runPost, List.map, List.mem_singleton] at hmem
      subst hmem
      exact ⟨rfl, rfl, rfl⟩
  | powerCycle =>
      simp only [requests_of, power_cycle, runPost, List.map, List.mem_singleton] at hmem
      subst hmem
      exact ⟨rfl, rfl, rfl⟩
  | powerStatus =>
      simp only [requests_of, power_status, List.mem_singleton] at hmem
      subst hmem
      exact ⟨rfl, rfl, rfl⟩
  | pxeNextBoot =>
      rw [requests_of, pxe_next_boot_eq, (set_next_boot_spec c env "pxe").1] at hmem
      simp only [List.mem_cons, List.not_mem_nil, or_false] at hmem
      rcases hmem with rfl | rfl
      · exact ⟨rfl, rfl, rfl⟩
      · exact ⟨rfl, rfl, rfl⟩
  | setNextBoot d =>
      rw [requests_of, (set_next_boot_spec c env d).1] at hmem
      simp only [List.mem_cons, List.not_mem_nil, or_false] at hmem
      rcases hmem with rfl | rfl
      · exact ⟨rfl, rfl, rfl⟩
      · exact ⟨rfl, rfl, rfl⟩
  | enableVnc pw =>
      rw [requests_of, (enable_vnc_spec c env pw).1] at hmem
      simp only [List.mem_cons, List.not_mem_nil, or_false] at hmem
      rcases hmem with rfl | rfl
      · exact ⟨rfl, rfl, rfl⟩
      · exact ⟨rfl, rfl, rfl⟩
  | vncStatus =>
      simp only [requests_of, vnc_status, List.mem_singleton] at hmem
      subst hmem
      exact ⟨rfl, rfl, rfl⟩

/-- Witness for C8 (amended): the one request of `power_on` carries the
SOAP content type and the stored digest credentials, and the request of
`power_status` carries none. -/
theorem c8_requests_witness :
    (postRequest exClient (Payload.powerStateRequest exClient.uri "on")).contentType =
        some soapContentType ∧
    (rawRequest exClient
        (Payload.getRequest exClient.uri CIM_AssociatedPowerManagementService)).contentType =
      none := by
  constructor
  · have h := c8_requests_auth_and_header exClient envRV0 .powerOn
        (postRequest exClient (Payload.powerStateRequest exClient.uri "on"))
        (by simp [requests_of, power_on, runPost])
    simpa [viaPostHelper] using h.2.2
  · have h := c8_requests_auth_and_header exClient envRV0 .powerStatus
        (rawRequest exClient
          (Payload.getRequest exClient.uri CIM_AssociatedPowerManagementService))
        (by simp [requests_of, power_status])
    simpa [viaPostHelper] using h.2.2

/-- Claim C9: `set_next_boot`, `pxe_next_boot` and `enable_vnc` return
Python `None` for every transport behaviour — the per-request result
codes computed by `post` are discarded, so a caller cannot observe
failure through the return value. -/
theorem c9_mutating_ops_return_none (c : Client) (env : Transport)
    (device : String) (pw : Option String) :
    (set_next_boot c env device).2 = .ret none ∧
    (pxe_next_boot c env).2 = .ret none ∧
    (enable_vnc c env pw).2 = .ret none :=
  ⟨(set_next_boot_spec c env device).2,
   by rw [pxe_next_boot_eq]; exact (set_next_boot_spec c env "pxe").2,
   (enable_vnc_spec c env pw).2⟩

/-- Claim C10: when no exactly-8-character override is supplied and the
stored account password is shorter than 8 characters, the RFB password
sent is the entire stored password, with no padding and no error — the
operation completes normally. -/
theorem c10_short_stored_password (c : Client) (env : Transport) (arg : Option String)
    (hArg : ∀ p, arg = some p → p.length ≠ 8)
    (hLen : c.password.length < 8) :
    (enable_vnc c env arg).1.map Prod.fst =
      [postRequest c (Payload.enableRemoteKvm c.uri c.password),
       postRequest c (Payload.kvmRedirect c.uri)] ∧
    (enable_vnc c env arg).2 = .ret none := by
  have hfull : pySlice 8 c.password = c.password := by
    unfold pySlice
    rw [List.take_of_length_le (show c.password.data.length ≤ 8 from le_of_lt hLen)]
  have hr : rfb_password c.password arg = c.password := by
    rw [rfb_password_eq]
    cases arg with
    | none => exact hfull
    | some p => simp [hArg p rfl, hfull]
  have h := enable_vnc_spec c env arg
  rw [hr] at h
  exact h

/-- Witness for C10: with stored password `"abc"` (3 characters) and no
override, `enable_vnc` sends `"abc"` itself and returns `None`. -/
theorem c10_short_stored_password_witness :
    (enable_vnc exClientShort envRV0 none).1.map Prod.fst =
      [postRequest exClientShort (Payload.enableRemoteKvm exClientShort.uri "abc"),
       postRequest exClientShort (Payload.kvmRedirect exClientShort.uri)] ∧
    (enable_vnc exClientShort envRV0 none).2 = .ret none :=
  c10_short_stored_password exClientShort envRV0 none
    (fun p hp => Option.noConfusion hp) (by decide)

end Amt
